import Mathlib

/-!
Verification of the promoter package of sigs.k8s.io/promo-tools (v3).

The Go sources embedded here are:
  pkg/promoter/promoter.go   (the Promoter type, its pipelines and stubs)
  the e2e driver (extractSvcAcc and friends)

Go conventions used by the embedding:
  an error value is Except GoError; a nil error is Except.ok ().
  errors.Wrap(err, msg) is wrap msg err on a non-nil err, and keeps nil
  errors unchanged (wrapE).
  Methods of the promoterImplementation interface are fields of a record
  of pure functions; a run of a pipeline is instrumented with a trace
  listing the interface methods in invocation order, so that claims about
  which steps run, and in what order, are statable.
  Pointer identity is modelled by addresses (plain naturals) where a claim
  depends on it (the DefaultOptions singleton).
-/

/-- Registry root identifier, e.g. a hostname plus path prefix. -/
abbrev RegistryName := String

/-- Repository (image) name inside a registry. -/
abbrev ImageName := String

/-- Content hash identifying immutable image content. -/
abbrev Digest := String

/-- Mutable human label bound to a digest. -/
abbrev Tag := String

/-- Go error payload: the error message. -/
abbrev GoError := String

/-- Modelled from the spec (the type lives in legacy/dockerregistry, outside
the provided sources): the tag operation of a promotion edge,
TagOp in {Add, Move, Keep, Delete}. -/
inductive TagOp where
  | Add : TagOp
  | Move : TagOp
  | Keep : TagOp
  | Del : TagOp
deriving DecidableEq, Repr

/-- Modelled from the spec (legacy/dockerregistry, outside the provided
sources): a registry context with Name, ServiceAccount and Src marker. -/
structure RegistryContext where
  Name : RegistryName
  ServiceAccount : String := ""
  Src : Bool := false
deriving DecidableEq, Repr

/-- Modelled from the spec: one image entry of a manifest, a name plus a
digest-to-tags mapping. -/
structure ManifestImage where
  Name : ImageName
  Digests : List (Digest × List Tag) := []
deriving DecidableEq, Repr

/-- Modelled from the spec: a promotion manifest with registries and images. -/
structure Manifest where
  Registries : List RegistryContext := []
  Images : List ManifestImage := []
deriving DecidableEq, Repr

/-- Modelled from the spec: observed state of one registry,
ImageName to (Digest to tag list). -/
abbrev RegInvImage := List (ImageName × List (Digest × List Tag))

/-- Modelled from the spec: the sync context aggregating manifests, live
inventory, worker-pool configuration and accumulated errors. Only the fields
the embedded pipelines touch are relevant; UseServiceAccount is read by
Promoter.PromoteImages. -/
structure SyncContext where
  Threads : Nat := 10
  DryRun : Bool := false
  UseServiceAccount : Bool := false
  Inv : List (RegistryName × RegInvImage) := []
  Errors : List GoError := []
deriving Repr

/-- Modelled from the spec (legacy/stream, outside the provided sources): a
deferred command object; only its existence matters here. -/
structure Producer where
  CmdInvocation : List String := []
deriving DecidableEq, Repr

/-- Modelled from the spec (legacy/dockerregistry, outside the provided
sources): an atomic planned mutation with the seven fields
SrcRegistry, SrcImageName, Digest, DstRegistry, DstImageName, Tag, TagOp. -/
structure PromotionEdge where
  SrcRegistry : RegistryName
  SrcImageName : ImageName
  Digest : Digest
  DstRegistry : RegistryName
  DstImageName : ImageName
  Tag : Tag
  TagOp : TagOp
deriving DecidableEq, Repr

/-- The Go value map[reg.PromotionEdge]interface\x7b\x7d returned by
GetPromotionEdges: entries are key-value pairs (the value type is the empty
interface, modelled by Unit) and, as in any Go map, no two entries share a
key. -/
structure PromotionMap where
  entries : List (PromotionEdge × Unit) := []
  nodupKeys : entries.Pairwise (fun a b => a.1 ≠ b.1) := by simp

/-- Pointer to an Options value, modelled as a heap address. -/
structure OptionsRef where
  addr : Nat
deriving DecidableEq, Repr

/-- Modelled from the spec: the process-wide DefaultOptions singleton, a
well-known address. -/
def DefaultOptions : OptionsRef := ⟨0⟩

/-- Modelled from the spec (options.go is outside the provided sources): the
run options handed to every pipeline step; the fields follow the CLI surface
of the spec. The embedded pipelines only pass the value through. -/
structure Options where
  manifestPaths : List String := []
  threads : Nat := 10
  confirm : Bool := false
  permitMoves : Bool := false
  snapshotRegistry : String := ""
  outputFormat : String := ""
deriving DecidableEq, Repr

/-- Alias for the Options type: inside the Promoter namespace the bare name
Options resolves to the stored-field projection Promoter.Options, so the
method signatures below use this alias for the argument type. -/
abbrev OptionsArg := Options

/-- streamProducerFunc: a function that gets the required fields to construct
a promotion stream producer (promoter.go lines 49-53). -/
def streamProducerFunc :=
  RegistryName → ImageName → RegistryContext → ImageName → Digest → Tag →
    TagOp → Producer

/-- The promoterImplementation interface (promoter.go lines 27-45), as a
record of pure functions. -/
structure promoterImplementation where
  ValidateOptions : Options → Except GoError Unit
  ActivateServiceAccounts : Options → Except GoError Unit
  ParseManifests : Options → Except GoError (List Manifest)
  MakeSyncContext : Options → List Manifest → Except GoError SyncContext
  GetPromotionEdges :
    SyncContext → List Manifest → Except GoError PromotionMap
  MakeProducerFunction : Bool → streamProducerFunc
  PromoteImages :
    SyncContext → PromotionMap → streamProducerFunc → Except GoError Unit
  GetSnapshotSourceRegistry : Options → Except GoError RegistryContext
  GetSnapshotManifests : Options → Except GoError (List Manifest)
  AppendManifestToSnapshot :
    Options → List Manifest → Except GoError (List Manifest)
  GetRegistryImageInventory :
    Options → List Manifest → Except GoError RegInvImage
  Snapshot : Options → RegInvImage → Except GoError Unit

/-- AllowedOutputFormats (promoter.go lines 9-12). -/
def AllowedOutputFormats : List String := ["csv", "yaml"]

/-- The Promoter type (promoter.go lines 14-17). The addr field records the
allocation address of the Promoter value itself; the Options field is the
stored pointer to an Options value. -/
structure Promoter where
  addr : Nat := 0
  Options : OptionsRef := DefaultOptions
  impl : promoterImplementation

/-- Modelled from the spec: the method bodies of
defaultPromoterImplementation live outside the provided sources (only the
empty struct declaration is embedded); the concrete behaviour is irrelevant
to every claim, only its existence is needed by New. -/
def defaultPromoterImplementation : promoterImplementation where
  ValidateOptions := fun _ => .ok ()
  ActivateServiceAccounts := fun _ => .ok ()
  ParseManifests := fun _ => .ok []
  MakeSyncContext := fun _ _ => .ok {}
  GetPromotionEdges := fun _ _ => .ok {}
  MakeProducerFunction := fun _ _ _ _ _ _ _ _ => {}
  PromoteImages := fun _ _ _ => .ok ()
  GetSnapshotSourceRegistry := fun _ => .ok { Name := "" }
  GetSnapshotManifests := fun _ => .ok []
  AppendManifestToSnapshot := fun _ m => .ok m
  GetRegistryImageInventory := fun _ _ => .ok []
  Snapshot := fun _ _ => .ok ()

/-- New (promoter.go lines 19-24): returns a fresh Promoter whose Options
field is the DefaultOptions singleton. The alloc argument models the address
of the fresh allocation performed by the address-of operator. -/
def New (alloc : Nat) : Promoter :=
  { addr := alloc
    Options := DefaultOptions
    impl := defaultPromoterImplementation }

/-- errors.Wrap on a non-nil error: the wrapped message. -/
def wrap (msg : String) (e : GoError) : GoError := msg ++ ": " ++ e

/-- errors.Wrap on a possibly-nil error: nil stays nil. -/
def wrapE (msg : String) : Except GoError Unit → Except GoError Unit
  | .ok u => .ok u
  | .error e => .error (wrap msg e)

/-- One invocation of a promoterImplementation method, for run traces. -/
inductive Step where
  | validateOptions
  | activateServiceAccounts
  | parseManifests
  | makeSyncContext
  | getPromotionEdges
  | makeProducerFunction
  | implPromoteImages
  | getSnapshotManifests
  | appendManifestToSnapshot
  | getRegistryImageInventory
  | implSnapshot
deriving DecidableEq, Repr

/-- Outcome of one pipeline run: the returned error value, the interface
methods invoked in order, and the receiver as left after the call. -/
structure RunResult where
  res : Except GoError Unit
  trace : List Step
  receiver : Promoter

/-- Promoter.PromoteImages (promoter.go lines 57-92), instrumented with the
invocation trace. Each interface call appends its Step; each early return
carries the wrapped error of the failing call; the receiver is returned
unchanged since the body never assigns through p. -/
def Promoter.PromoteImages (p : Promoter) (opts : OptionsArg) : RunResult :=
  match p.impl.ValidateOptions opts with
  | .error e =>
    ⟨.error (wrap "validating options" e), [.validateOptions], p⟩
  | .ok _ =>
  match p.impl.ActivateServiceAccounts opts with
  | .error e =>
    ⟨.error (wrap "activating service accounts" e),
      [.validateOptions, .activateServiceAccounts], p⟩
  | .ok _ =>
  match p.impl.ParseManifests opts with
  | .error e =>
    ⟨.error (wrap "parsing manifests" e),
      [.validateOptions, .activateServiceAccounts, .parseManifests], p⟩
  | .ok mfests =>
  match p.impl.MakeSyncContext opts mfests with
  | .error e =>
    ⟨.error (wrap "creating sync context" e),
      [.validateOptions, .activateServiceAccounts, .parseManifests,
        .makeSyncContext], p⟩
  | .ok sc =>
  match p.impl.GetPromotionEdges sc mfests with
  | .error e =>
    ⟨.error (wrap "filtering edges" e),
      [.validateOptions, .activateServiceAccounts, .parseManifests,
        .makeSyncContext, .getPromotionEdges], p⟩
  | .ok promotionEdges =>
  ⟨wrapE "running promotion"
      (p.impl.PromoteImages sc promotionEdges
        (p.impl.MakeProducerFunction sc.UseServiceAccount)),
    [.validateOptions, .activateServiceAccounts, .parseManifests,
      .makeSyncContext, .getPromotionEdges, .makeProducerFunction,
      .implPromoteImages], p⟩

/-- Promoter.ValidateManifestLists (promoter.go lines 94-97): a stub. -/
def Promoter.ValidateManifestLists (_p : Promoter) (_opts : OptionsArg) :
    Except GoError Unit :=
  .ok ()

/-- Promoter.Snapshot (promoter.go lines 100-125), instrumented with the
invocation trace like Promoter.PromoteImages. -/
def Promoter.Snapshot (p : Promoter) (opts : OptionsArg) : RunResult :=
  match p.impl.ValidateOptions opts with
  | .error e =>
    ⟨.error (wrap "validating options" e), [.validateOptions], p⟩
  | .ok _ =>
  match p.impl.ActivateServiceAccounts opts with
  | .error e =>
    ⟨.error (wrap "activating service accounts" e),
      [.validateOptions, .activateServiceAccounts], p⟩
  | .ok _ =>
  match p.impl.GetSnapshotManifests opts with
  | .error e =>
    ⟨.error (wrap "getting snapshot manifests" e),
      [.validateOptions, .activateServiceAccounts, .getSnapshotManifests], p⟩
  | .ok mfests0 =>
  match p.impl.AppendManifestToSnapshot opts mfests0 with
  | .error e =>
    ⟨.error (wrap "adding the specified manifest to the snapshot context" e),
      [.validateOptions, .activateServiceAccounts, .getSnapshotManifests,
        .appendManifestToSnapshot], p⟩
  | .ok mfests =>
  match p.impl.GetRegistryImageInventory opts mfests with
  | .error e =>
    ⟨.error (wrap "getting registry image inventory" e),
      [.validateOptions, .activateServiceAccounts, .getSnapshotManifests,
        .appendManifestToSnapshot, .getRegistryImageInventory], p⟩
  | .ok rii =>
  ⟨wrapE "generating snapshot" (p.impl.Snapshot opts rii),
    [.validateOptions, .activateServiceAccounts, .getSnapshotManifests,
      .appendManifestToSnapshot, .getRegistryImageInventory, .implSnapshot],
    p⟩

/-- Promoter.SecurityScan (promoter.go lines 127-130): a stub. -/
def Promoter.SecurityScan (_p : Promoter) (_opts : OptionsArg) :
    Except GoError Unit :=
  .ok ()

/-- Promoter.CheckManifestLists (promoter.go lines 132-135): a stub. -/
def Promoter.CheckManifestLists (_p : Promoter) (_opts : OptionsArg) :
    Except GoError Unit :=
  .ok ()

/-- extractSvcAcc (e2e driver, lines 206-214): first matching registry
context wins; empty string when none matches. -/
def extractSvcAcc (registry : RegistryName) (rcs : List RegistryContext) :
    String :=
  match rcs with
  | [] => ""
  | r :: rest =>
    if r.Name = registry then r.ServiceAccount else extractSvcAcc registry rest


/-! Shape lemmas: one per early return of Promoter.PromoteImages, plus the
success case, each pinning down the full RunResult. -/

/-- Run shape when ValidateOptions fails. -/
theorem promoteImages_eq_validate_error (p : Promoter) (opts : Options)
    (e : GoError) (hv : p.impl.ValidateOptions opts = .error e) :
    p.PromoteImages opts =
      ⟨.error (wrap "validating options" e), [.validateOptions], p⟩ := by
  simp only [Promoter.PromoteImages, hv]

/-- Run shape when ActivateServiceAccounts fails. -/
theorem promoteImages_eq_activate_error (p : Promoter) (opts : Options)
    (e : GoError)
    (hv : p.impl.ValidateOptions opts = .ok ())
    (ha : p.impl.ActivateServiceAccounts opts = .error e) :
    p.PromoteImages opts =
      ⟨.error (wrap "activating service accounts" e),
        [.validateOptions, .activateServiceAccounts], p⟩ := by
  simp only [Promoter.PromoteImages, hv, ha]

/-- Run shape when ParseManifests fails. -/
theorem promoteImages_eq_parse_error (p : Promoter) (opts : Options)
    (e : GoError)
    (hv : p.impl.ValidateOptions opts = .ok ())
    (ha : p.impl.ActivateServiceAccounts opts = .ok ())
    (hp : p.impl.ParseManifests opts = .error e) :
    p.PromoteImages opts =
      ⟨.error (wrap "parsing manifests" e),
        [.validateOptions, .activateServiceAccounts, .parseManifests], p⟩ := by
  simp only [Promoter.PromoteImages, hv, ha, hp]

/-- Run shape when MakeSyncContext fails. -/
theorem promoteImages_eq_syncContext_error (p : Promoter) (opts : Options)
    (m : List Manifest) (e : GoError)
    (hv : p.impl.ValidateOptions opts = .ok ())
    (ha : p.impl.ActivateServiceAccounts opts = .ok ())
    (hp : p.impl.ParseManifests opts = .ok m)
    (hm : p.impl.MakeSyncContext opts m = .error e) :
    p.PromoteImages opts =
      ⟨.error (wrap "creating sync context" e),
        [.validateOptions, .activateServiceAccounts, .parseManifests,
          .makeSyncContext], p⟩ := by
  simp only [Promoter.PromoteImages, hv, ha, hp, hm]

/-- Run shape when GetPromotionEdges fails. -/
theorem promoteImages_eq_edges_error (p : Promoter) (opts : Options)
    (m : List Manifest) (sc : SyncContext) (e : GoError)
    (hv : p.impl.ValidateOptions opts = .ok ())
    (ha : p.impl.ActivateServiceAccounts opts = .ok ())
    (hp : p.impl.ParseManifests opts = .ok m)
    (hm : p.impl.MakeSyncContext opts m = .ok sc)
    (hg : p.impl.GetPromotionEdges sc m = .error e) :
    p.PromoteImages opts =
      ⟨.error (wrap "filtering edges" e),
        [.validateOptions, .activateServiceAccounts, .parseManifests,
          .makeSyncContext, .getPromotionEdges], p⟩ := by
  simp only [Promoter.PromoteImages, hv, ha, hp, hm, hg]

/-- Run shape when every step up to planning succeeds. -/
theorem promoteImages_eq_success (p : Promoter) (opts : Options)
    (m : List Manifest) (sc : SyncContext) (es : PromotionMap)
    (hv : p.impl.ValidateOptions opts = .ok ())
    (ha : p.impl.ActivateServiceAccounts opts = .ok ())
    (hp : p.impl.ParseManifests opts = .ok m)
    (hm : p.impl.MakeSyncContext opts m = .ok sc)
    (hg : p.impl.GetPromotionEdges sc m = .ok es) :
    p.PromoteImages opts =
      ⟨wrapE "running promotion"
          (p.impl.PromoteImages sc es
            (p.impl.MakeProducerFunction sc.UseServiceAccount)),
        [.validateOptions, .activateServiceAccounts, .parseManifests,
          .makeSyncContext, .getPromotionEdges, .makeProducerFunction,
          .implPromoteImages], p⟩ := by
  simp only [Promoter.PromoteImages, hv, ha, hp, hm, hg]

/-! Shape lemmas for Promoter.Snapshot. -/

/-- Snapshot run shape when ValidateOptions fails. -/
theorem snapshot_eq_validate_error (p : Promoter) (opts : Options)
    (e : GoError) (hv : p.impl.ValidateOptions opts = .error e) :
    p.Snapshot opts =
      ⟨.error (wrap "validating options" e), [.validateOptions], p⟩ := by
  simp only [Promoter.Snapshot, hv]

/-- Snapshot run shape when ActivateServiceAccounts fails. -/
theorem snapshot_eq_activate_error (p : Promoter) (opts : Options)
    (e : GoError)
    (hv : p.impl.ValidateOptions opts = .ok ())
    (ha : p.impl.ActivateServiceAccounts opts = .error e) :
    p.Snapshot opts =
      ⟨.error (wrap "activating service accounts" e),
        [.validateOptions, .activateServiceAccounts], p⟩ := by
  simp only [Promoter.Snapshot, hv, ha]

/-- Snapshot run shape when GetSnapshotManifests fails. -/
theorem snapshot_eq_manifests_error (p : Promoter) (opts : Options)
    (e : GoError)
    (hv : p.impl.ValidateOptions opts = .ok ())
    (ha : p.impl.ActivateServiceAccounts opts = .ok ())
    (hs : p.impl.GetSnapshotManifests opts = .error e) :
    p.Snapshot opts =
      ⟨.error (wrap "getting snapshot manifests" e),
        [.validateOptions, .activateServiceAccounts, .getSnapshotManifests],
        p⟩ := by
  simp only [Promoter.Snapshot, hv, ha, hs]

/-- Snapshot run shape when AppendManifestToSnapshot fails. -/
theorem snapshot_eq_append_error (p : Promoter) (opts : Options)
    (m0 : List Manifest) (e : GoError)
    (hv : p.impl.ValidateOptions opts = .ok ())
    (ha : p.impl.ActivateServiceAccounts opts = .ok ())
    (hs : p.impl.GetSnapshotManifests opts = .ok m0)
    (hap : p.impl.AppendManifestToSnapshot opts m0 = .error e) :
    p.Snapshot opts =
      ⟨.error (wrap "adding the specified manifest to the snapshot context" e),
        [.validateOptions, .activateServiceAccounts, .getSnapshotManifests,
          .appendManifestToSnapshot], p⟩ := by
  simp only [Promoter.Snapshot, hv, ha, hs, hap]

/-- Snapshot run shape when GetRegistryImageInventory fails. -/
theorem snapshot_eq_inv_error (p : Promoter) (opts : Options)
    (m0 m : List Manifest) (e : GoError)
    (hv : p.impl.ValidateOptions opts = .ok ())
    (ha : p.impl.ActivateServiceAccounts opts = .ok ())
    (hs : p.impl.GetSnapshotManifests opts = .ok m0)
    (hap : p.impl.AppendManifestToSnapshot opts m0 = .ok m)
    (hri : p.impl.GetRegistryImageInventory opts m = .error e) :
    p.Snapshot opts =
      ⟨.error (wrap "getting registry image inventory" e),
        [.validateOptions, .activateServiceAccounts, .getSnapshotManifests,
          .appendManifestToSnapshot, .getRegistryImageInventory], p⟩ := by
  simp only [Promoter.Snapshot, hv, ha, hs, hap, hri]

/-- Snapshot run shape when every step up to the inventory succeeds. -/
theorem snapshot_eq_success (p : Promoter) (opts : Options)
    (m0 m : List Manifest) (rii : RegInvImage)
    (hv : p.impl.ValidateOptions opts = .ok ())
    (ha : p.impl.ActivateServiceAccounts opts = .ok ())
    (hs : p.impl.GetSnapshotManifests opts = .ok m0)
    (hap : p.impl.AppendManifestToSnapshot opts m0 = .ok m)
    (hri : p.impl.GetRegistryImageInventory opts m = .ok rii) :
    p.Snapshot opts =
      ⟨wrapE "generating snapshot" (p.impl.Snapshot opts rii),
        [.validateOptions, .activateServiceAccounts, .getSnapshotManifests,
          .appendManifestToSnapshot, .getRegistryImageInventory,
          .implSnapshot], p⟩ := by
  simp only [Promoter.Snapshot, hv, ha, hs, hap, hri]

/-- The receiver comes back untouched from Promoter.PromoteImages. -/
theorem promoteImages_receiver (p : Promoter) (opts : Options) :
    (p.PromoteImages opts).receiver = p := by
  rcases hv : p.impl.ValidateOptions opts with e | ⟨⟩
  · rw [promoteImages_eq_validate_error p opts e hv]
  rcases ha : p.impl.ActivateServiceAccounts opts with e | ⟨⟩
  · rw [promoteImages_eq_activate_error p opts e hv ha]
  rcases hp : p.impl.ParseManifests opts with e | m
  · rw [promoteImages_eq_parse_error p opts e hv ha hp]
  rcases hm : p.impl.MakeSyncContext opts m with e | sc
  · rw [promoteImages_eq_syncContext_error p opts m e hv ha hp hm]
  rcases hg : p.impl.GetPromotionEdges sc m with e | es
  · rw [promoteImages_eq_edges_error p opts m sc e hv ha hp hm hg]
  · rw [promoteImages_eq_success p opts m sc es hv ha hp hm hg]

/-- The receiver comes back untouched from Promoter.Snapshot. -/
theorem snapshot_receiver (p : Promoter) (opts : Options) :
    (p.Snapshot opts).receiver = p := by
  rcases hv : p.impl.ValidateOptions opts with e | ⟨⟩
  · rw [snapshot_eq_validate_error p opts e hv]
  rcases ha : p.impl.ActivateServiceAccounts opts with e | ⟨⟩
  · rw [snapshot_eq_activate_error p opts e hv ha]
  rcases hs : p.impl.GetSnapshotManifests opts with e | m0
  · rw [snapshot_eq_manifests_error p opts e hv ha hs]
  rcases hap : p.impl.AppendManifestToSnapshot opts m0 with e | m
  · rw [snapshot_eq_append_error p opts m0 e hv ha hs hap]
  rcases hri : p.impl.GetRegistryImageInventory opts m with e | rii
  · rw [snapshot_eq_inv_error p opts m0 m e hv ha hs hap hri]
  · rw [snapshot_eq_success p opts m0 m rii hv ha hs hap hri]

/-- The error value and the invocation trace of Promoter.PromoteImages depend
on the receiver only through its impl field. -/
theorem promoteImages_only_uses_impl (p q : Promoter) (opts : Options)
    (h : p.impl = q.impl) :
    (p.PromoteImages opts).res = (q.PromoteImages opts).res ∧
      (p.PromoteImages opts).trace = (q.PromoteImages opts).trace := by
  obtain ⟨a1, o1, i1⟩ := p
  obtain ⟨a2, o2, i2⟩ := q
  simp only at h
  subst h
  rcases hv : i1.ValidateOptions opts with e | ⟨⟩
  · rw [promoteImages_eq_validate_error ⟨a1, o1, i1⟩ opts e hv,
      promoteImages_eq_validate_error ⟨a2, o2, i1⟩ opts e hv]
    exact ⟨rfl, rfl⟩
  rcases ha : i1.ActivateServiceAccounts opts with e | ⟨⟩
  · rw [promoteImages_eq_activate_error ⟨a1, o1, i1⟩ opts e hv ha,
      promoteImages_eq_activate_error ⟨a2, o2, i1⟩ opts e hv ha]
    exact ⟨rfl, rfl⟩
  rcases hp : i1.ParseManifests opts with e | m
  · rw [promoteImages_eq_parse_error ⟨a1, o1, i1⟩ opts e hv ha hp,
      promoteImages_eq_parse_error ⟨a2, o2, i1⟩ opts e hv ha hp]
    exact ⟨rfl, rfl⟩
  rcases hm : i1.MakeSyncContext opts m with e | sc
  · rw [promoteImages_eq_syncContext_error ⟨a1, o1, i1⟩ opts m e hv ha hp hm,
      promoteImages_eq_syncContext_error ⟨a2, o2, i1⟩ opts m e hv ha hp hm]
    exact ⟨rfl, rfl⟩
  rcases hg : i1.GetPromotionEdges sc m with e | es
  · rw [promoteImages_eq_edges_error ⟨a1, o1, i1⟩ opts m sc e hv ha hp hm hg,
      promoteImages_eq_edges_error ⟨a2, o2, i1⟩ opts m sc e hv ha hp hm hg]
    exact ⟨rfl, rfl⟩
  · rw [promoteImages_eq_success ⟨a1, o1, i1⟩ opts m sc es hv ha hp hm hg,
      promoteImages_eq_success ⟨a2, o2, i1⟩ opts m sc es hv ha hp hm hg]
    exact ⟨rfl, rfl⟩

/-- The error value and the invocation trace of Promoter.Snapshot depend on
the receiver only through its impl field. -/
theorem snapshot_only_uses_impl (p q : Promoter) (opts : Options)
    (h : p.impl = q.impl) :
    (p.Snapshot opts).res = (q.Snapshot opts).res ∧
      (p.Snapshot opts).trace = (q.Snapshot opts).trace := by
  obtain ⟨a1, o1, i1⟩ := p
  obtain ⟨a2, o2, i2⟩ := q
  simp only at h
  subst h
  rcases hv : i1.ValidateOptions opts with e | ⟨⟩
  · rw [snapshot_eq_validate_error ⟨a1, o1, i1⟩ opts e hv,
      snapshot_eq_validate_error ⟨a2, o2, i1⟩ opts e hv]
    exact ⟨rfl, rfl⟩
  rcases ha : i1.ActivateServiceAccounts opts with e | ⟨⟩
  · rw [snapshot_eq_activate_error ⟨a1, o1, i1⟩ opts e hv ha,
      snapshot_eq_activate_error ⟨a2, o2, i1⟩ opts e hv ha]
    exact ⟨rfl, rfl⟩
  rcases hs : i1.GetSnapshotManifests opts with e | m0
  · rw [snapshot_eq_manifests_error ⟨a1, o1, i1⟩ opts e hv ha hs,
      snapshot_eq_manifests_error ⟨a2, o2, i1⟩ opts e hv ha hs]
    exact ⟨rfl, rfl⟩
  rcases hap : i1.AppendManifestToSnapshot opts m0 with e | m
  · rw [snapshot_eq_append_error ⟨a1, o1, i1⟩ opts m0 e hv ha hs hap,
      snapshot_eq_append_error ⟨a2, o2, i1⟩ opts m0 e hv ha hs hap]
    exact ⟨rfl, rfl⟩
  rcases hri : i1.GetRegistryImageInventory opts m with e | rii
  · rw [snapshot_eq_inv_error ⟨a1, o1, i1⟩ opts m0 m e hv ha hs hap hri,
      snapshot_eq_inv_error ⟨a2, o2, i1⟩ opts m0 m e hv ha hs hap hri]
    exact ⟨rfl, rfl⟩
  · rw [snapshot_eq_success ⟨a1, o1, i1⟩ opts m0 m rii hv ha hs hap hri,
      snapshot_eq_success ⟨a2, o2, i1⟩ opts m0 m rii hv ha hs hap hri]
    exact ⟨rfl, rfl⟩

/-- C1: if ParseManifests fails in a run of Promoter.PromoteImages (it was
reached, so validation and account activation succeeded, and it returned an
error), the run returns that error wrapped as "parsing manifests", and none
of MakeSyncContext, GetPromotionEdges, MakeProducerFunction, or the
implementation PromoteImages step is invoked. -/
theorem claim_C1_parse_failure_aborts_before_mutation
    (p : Promoter) (opts : Options) (e : GoError)
    (hv : p.impl.ValidateOptions opts = .ok ())
    (ha : p.impl.ActivateServiceAccounts opts = .ok ())
    (hp : p.impl.ParseManifests opts = .error e) :
    (p.PromoteImages opts).res = .error (wrap "parsing manifests" e) ∧
      Step.makeSyncContext ∉ (p.PromoteImages opts).trace ∧
      Step.getPromotionEdges ∉ (p.PromoteImages opts).trace ∧
      Step.makeProducerFunction ∉ (p.PromoteImages opts).trace ∧
      Step.implPromoteImages ∉ (p.PromoteImages opts).trace := by
  rw [promoteImages_eq_parse_error p opts e hv ha hp]
  refine ⟨rfl, ?_, ?_, ?_, ?_⟩ <;> simp

/-- Fixture for the C1 witness: an implementation whose manifest parsing
fails while the two steps before it succeed. -/
def parseFailImpl : promoterImplementation :=
  { defaultPromoterImplementation with
      ParseManifests := fun _ => .error "boom" }

/-- Promoter carrying parseFailImpl. -/
def parseFailPromoter : Promoter := { impl := parseFailImpl }

/-- C1 witness: the theorem applied to the parseFailImpl fixture. -/
theorem claim_C1_witness :
    parseFailPromoter.impl.ValidateOptions {} = .ok () ∧
      parseFailPromoter.impl.ActivateServiceAccounts {} = .ok () ∧
      parseFailPromoter.impl.ParseManifests {} = .error "boom" ∧
      (parseFailPromoter.PromoteImages {}).res =
        .error (wrap "parsing manifests" "boom") ∧
      Step.implPromoteImages ∉ (parseFailPromoter.PromoteImages {}).trace :=
  ⟨rfl, rfl, rfl,
    (claim_C1_parse_failure_aborts_before_mutation
      parseFailPromoter {} "boom" rfl rfl rfl).1,
    (claim_C1_parse_failure_aborts_before_mutation
      parseFailPromoter {} "boom" rfl rfl rfl).2.2.2.2⟩

/-- C5: the allowed snapshot output formats are exactly csv and yaml. -/
theorem claim_C5_allowed_output_formats (s : String) :
    s ∈ AllowedOutputFormats ↔ s = "csv" ∨ s = "yaml" := by
  simp [AllowedOutputFormats]

/-- C7: the stub operations SecurityScan, CheckManifestLists and
ValidateManifestLists return nil for every Promoter and Options input. -/
theorem claim_C7_stubs_return_nil (p : Promoter) (opts : Options) :
    p.SecurityScan opts = .ok () ∧ p.CheckManifestLists opts = .ok () ∧
      p.ValidateManifestLists opts = .ok () :=
  ⟨rfl, rfl, rfl⟩

/-- C8: every Promoter built by New stores the process-wide DefaultOptions
singleton in its Options field, so any two results of New share it. -/
theorem claim_C8_new_options_is_default_singleton (a b : Nat) :
    (New a).Options = DefaultOptions ∧ (New a).Options = (New b).Options :=
  ⟨rfl, rfl⟩

/-- C9: extractSvcAcc returns the ServiceAccount of the first registry
context whose Name equals the given registry name, and the empty string when
no context matches. -/
theorem claim_C9_extractSvcAcc_first_match (registry : RegistryName)
    (rcs : List RegistryContext) :
    extractSvcAcc registry rcs =
      ((rcs.find? (fun r => r.Name == registry)).map
        (fun r => r.ServiceAccount)).getD "" := by
  induction rcs with
  | nil => rfl
  | cons r rest ih =>
    by_cases h : r.Name = registry
    · simp [extractSvcAcc, List.find?, h]
    · have hb : (r.Name == registry) = false := beq_eq_false_iff_ne.mpr h
      simp [extractSvcAcc, List.find?, h, hb, ih]

/-- C2: Promoter.PromoteImages returns nil exactly when all six fallible
steps return nil on the values fed along the pipeline, and when a step
fails, the first failing step wins: its error is the single result, wrapped
with the message of that step. -/
theorem claim_C2_nil_iff_every_step_nil (p : Promoter) (opts : Options) :
    ((p.PromoteImages opts).res = .ok () ↔
      p.impl.ValidateOptions opts = .ok () ∧
      p.impl.ActivateServiceAccounts opts = .ok () ∧
      ∃ m, p.impl.ParseManifests opts = .ok m ∧
        ∃ sc, p.impl.MakeSyncContext opts m = .ok sc ∧
          ∃ es, p.impl.GetPromotionEdges sc m = .ok es ∧
            p.impl.PromoteImages sc es
              (p.impl.MakeProducerFunction sc.UseServiceAccount) = .ok ()) ∧
    (∀ e, p.impl.ValidateOptions opts = .error e →
      (p.PromoteImages opts).res = .error (wrap "validating options" e)) ∧
    (∀ e, p.impl.ValidateOptions opts = .ok () →
      p.impl.ActivateServiceAccounts opts = .error e →
      (p.PromoteImages opts).res =
        .error (wrap "activating service accounts" e)) ∧
    (∀ e, p.impl.ValidateOptions opts = .ok () →
      p.impl.ActivateServiceAccounts opts = .ok () →
      p.impl.ParseManifests opts = .error e →
      (p.PromoteImages opts).res = .error (wrap "parsing manifests" e)) ∧
    (∀ m e, p.impl.ValidateOptions opts = .ok () →
      p.impl.ActivateServiceAccounts opts = .ok () →
      p.impl.ParseManifests opts = .ok m →
      p.impl.MakeSyncContext opts m = .error e →
      (p.PromoteImages opts).res = .error (wrap "creating sync context" e)) ∧
    (∀ m sc e, p.impl.ValidateOptions opts = .ok () →
      p.impl.ActivateServiceAccounts opts = .ok () →
      p.impl.ParseManifests opts = .ok m →
      p.impl.MakeSyncContext opts m = .ok sc →
      p.impl.GetPromotionEdges sc m = .error e →
      (p.PromoteImages opts).res = .error (wrap "filtering edges" e)) ∧
    (∀ m sc es e, p.impl.ValidateOptions opts = .ok () →
      p.impl.ActivateServiceAccounts opts = .ok () →
      p.impl.ParseManifests opts = .ok m →
      p.impl.MakeSyncContext opts m = .ok sc →
      p.impl.GetPromotionEdges sc m = .ok es →
      p.impl.PromoteImages sc es
        (p.impl.MakeProducerFunction sc.UseServiceAccount) = .error e →
      (p.PromoteImages opts).res = .error (wrap "running promotion" e)) := by
  refine ⟨⟨?_, ?_⟩, ?_, ?_, ?_, ?_, ?_, ?_⟩
  · intro hres
    rcases hv : p.impl.ValidateOptions opts with e | ⟨⟩
    · rw [promoteImages_eq_validate_error p opts e hv] at hres
      exact absurd hres (by simp)
    rcases ha : p.impl.ActivateServiceAccounts opts with e | ⟨⟩
    · rw [promoteImages_eq_activate_error p opts e hv ha] at hres
      exact absurd hres (by simp)
    rcases hp : p.impl.ParseManifests opts with e | m
    · rw [promoteImages_eq_parse_error p opts e hv ha hp] at hres
      exact absurd hres (by simp)
    rcases hm : p.impl.MakeSyncContext opts m with e | sc
    · rw [promoteImages_eq_syncContext_error p opts m e hv ha hp hm] at hres
      exact absurd hres (by simp)
    rcases hg : p.impl.GetPromotionEdges sc m with e | es
    · rw [promoteImages_eq_edges_error p opts m sc e hv ha hp hm hg] at hres
      exact absurd hres (by simp)
    rw [promoteImages_eq_success p opts m sc es hv ha hp hm hg] at hres
    rcases hx : p.impl.PromoteImages sc es
        (p.impl.MakeProducerFunction sc.UseServiceAccount) with e | ⟨⟩
    · exact absurd hres (by simp [wrapE, hx])
    · exact ⟨rfl, rfl, m, rfl, sc, hm, es, hg, hx⟩
  · rintro ⟨hv, ha, m, hp, sc, hm, es, hg, hx⟩
    rw [promoteImages_eq_success p opts m sc es hv ha hp hm hg]
    simp [wrapE, hx]
  · intro e hv
    rw [promoteImages_eq_validate_error p opts e hv]
  · intro e hv ha
    rw [promoteImages_eq_activate_error p opts e hv ha]
  · intro e hv ha hp
    rw [promoteImages_eq_parse_error p opts e hv ha hp]
  · intro m e hv ha hp hm
    rw [promoteImages_eq_syncContext_error p opts m e hv ha hp hm]
  · intro m sc e hv ha hp hm hg
    rw [promoteImages_eq_edges_error p opts m sc e hv ha hp hm hg]
  · intro m sc es e hv ha hp hm hg hx
    rw [promoteImages_eq_success p opts m sc es hv ha hp hm hg]
    simp [wrapE, hx]

/-- Fixture for the C2 witness: account activation fails. -/
def activateFailImpl : promoterImplementation :=
  { defaultPromoterImplementation with
      ActivateServiceAccounts := fun _ => .error "denied" }

/-- Promoter carrying activateFailImpl. -/
def activateFailPromoter : Promoter := { impl := activateFailImpl }

/-- C2 witness: on the activateFailImpl fixture the run surfaces the wrapped
activation error. -/
theorem claim_C2_witness :
    activateFailPromoter.impl.ValidateOptions {} = .ok () ∧
      activateFailPromoter.impl.ActivateServiceAccounts {} =
        .error "denied" ∧
      (activateFailPromoter.PromoteImages {}).res =
        .error (wrap "activating service accounts" "denied") :=
  ⟨rfl, rfl,
    (claim_C2_nil_iff_every_step_nil activateFailPromoter {}).2.2.1
      "denied" rfl rfl⟩

/-- In the trace of a run that failed at planning, inventory construction
precedes planning. -/
theorem makeSyncContext_before_getPromotionEdges_edges_trace :
    List.indexOf Step.makeSyncContext
        [Step.validateOptions, Step.activateServiceAccounts,
          Step.parseManifests, Step.makeSyncContext,
          Step.getPromotionEdges] <
      List.indexOf Step.getPromotionEdges
        [Step.validateOptions, Step.activateServiceAccounts,
          Step.parseManifests, Step.makeSyncContext,
          Step.getPromotionEdges] := by
  decide

/-- In the full success trace, inventory construction precedes planning. -/
theorem makeSyncContext_before_getPromotionEdges_full_trace :
    List.indexOf Step.makeSyncContext
        [Step.validateOptions, Step.activateServiceAccounts,
          Step.parseManifests, Step.makeSyncContext, Step.getPromotionEdges,
          Step.makeProducerFunction, Step.implPromoteImages] <
      List.indexOf Step.getPromotionEdges
        [Step.validateOptions, Step.activateServiceAccounts,
          Step.parseManifests, Step.makeSyncContext, Step.getPromotionEdges,
          Step.makeProducerFunction, Step.implPromoteImages] := by
  decide

/-- In the full success trace, planning precedes edge execution. -/
theorem getPromotionEdges_before_implPromoteImages_full_trace :
    List.indexOf Step.getPromotionEdges
        [Step.validateOptions, Step.activateServiceAccounts,
          Step.parseManifests, Step.makeSyncContext, Step.getPromotionEdges,
          Step.makeProducerFunction, Step.implPromoteImages] <
      List.indexOf Step.implPromoteImages
        [Step.validateOptions, Step.activateServiceAccounts,
          Step.parseManifests, Step.makeSyncContext, Step.getPromotionEdges,
          Step.makeProducerFunction, Step.implPromoteImages] := by
  decide

/-- C3: in every run of Promoter.PromoteImages, planning is invoked only
after the sync context was successfully built (MakeSyncContext returned nil,
after a successful manifest parse) and appears after the MakeSyncContext
invocation in the trace; edge execution is invoked only after planning
returned nil and appears after the GetPromotionEdges invocation in the
trace. -/
theorem claim_C3_planning_then_execution_order (p : Promoter)
    (opts : Options) :
    (Step.getPromotionEdges ∈ (p.PromoteImages opts).trace →
      (∃ m sc, p.impl.ParseManifests opts = .ok m ∧
        p.impl.MakeSyncContext opts m = .ok sc) ∧
      (p.PromoteImages opts).trace.indexOf Step.makeSyncContext <
        (p.PromoteImages opts).trace.indexOf Step.getPromotionEdges) ∧
    (Step.implPromoteImages ∈ (p.PromoteImages opts).trace →
      (∃ m sc es, p.impl.ParseManifests opts = .ok m ∧
        p.impl.MakeSyncContext opts m = .ok sc ∧
        p.impl.GetPromotionEdges sc m = .ok es) ∧
      (p.PromoteImages opts).trace.indexOf Step.getPromotionEdges <
        (p.PromoteImages opts).trace.indexOf Step.implPromoteImages) := by
  rcases hv : p.impl.ValidateOptions opts with e | ⟨⟩
  · rw [promoteImages_eq_validate_error p opts e hv]
    exact ⟨fun h => absurd h (by simp), fun h => absurd h (by simp)⟩
  rcases ha : p.impl.ActivateServiceAccounts opts with e | ⟨⟩
  · rw [promoteImages_eq_activate_error p opts e hv ha]
    exact ⟨fun h => absurd h (by simp), fun h => absurd h (by simp)⟩
  rcases hp : p.impl.ParseManifests opts with e | m
  · rw [promoteImages_eq_parse_error p opts e hv ha hp]
    exact ⟨fun h => absurd h (by simp), fun h => absurd h (by simp)⟩
  rcases hm : p.impl.MakeSyncContext opts m with e | sc
  · rw [promoteImages_eq_syncContext_error p opts m e hv ha hp hm]
    exact ⟨fun h => absurd h (by simp), fun h => absurd h (by simp)⟩
  rcases hg : p.impl.GetPromotionEdges sc m with e | es
  · rw [promoteImages_eq_edges_error p opts m sc e hv ha hp hm hg]
    exact ⟨fun _ => ⟨⟨m, sc, rfl, hm⟩,
        makeSyncContext_before_getPromotionEdges_edges_trace⟩,
      fun h => absurd h (by simp)⟩
  · rw [promoteImages_eq_success p opts m sc es hv ha hp hm hg]
    exact ⟨fun _ => ⟨⟨m, sc, rfl, hm⟩,
        makeSyncContext_before_getPromotionEdges_full_trace⟩,
      fun _ => ⟨⟨m, sc, es, rfl, hm, hg⟩,
        getPromotionEdges_before_implPromoteImages_full_trace⟩⟩

/-- C3 witness: on the all-succeeding default implementation both
antecedents hold and the theorem yields the ordering facts. -/
theorem claim_C3_witness :
    Step.implPromoteImages ∈ ((New 3).PromoteImages {}).trace ∧
      ((∃ m sc es, (New 3).impl.ParseManifests {} = .ok m ∧
          (New 3).impl.MakeSyncContext {} m = .ok sc ∧
          (New 3).impl.GetPromotionEdges sc m = .ok es) ∧
        ((New 3).PromoteImages {}).trace.indexOf Step.getPromotionEdges <
          ((New 3).PromoteImages {}).trace.indexOf Step.implPromoteImages) :=
  ⟨by decide, (claim_C3_planning_then_execution_order (New 3) {}).2
    (by decide)⟩

/-- C6: when a run of Promoter.PromoteImages reaches edge execution, the
producer function handed to the implementation PromoteImages step is exactly
MakeProducerFunction applied to the sync context UseServiceAccount flag (a
pure streamProducerFunc mapping edge fields to a deferred Producer), and the
trace shows the producer construction right before edge execution. -/
theorem claim_C6_producer_built_from_useServiceAccount
    (p : Promoter) (opts : Options) (m : List Manifest) (sc : SyncContext)
    (es : PromotionMap)
    (hv : p.impl.ValidateOptions opts = .ok ())
    (ha : p.impl.ActivateServiceAccounts opts = .ok ())
    (hp : p.impl.ParseManifests opts = .ok m)
    (hm : p.impl.MakeSyncContext opts m = .ok sc)
    (hg : p.impl.GetPromotionEdges sc m = .ok es) :
    (p.PromoteImages opts).res =
      wrapE "running promotion"
        (p.impl.PromoteImages sc es
          (p.impl.MakeProducerFunction sc.UseServiceAccount)) ∧
    (p.PromoteImages opts).trace =
      [.validateOptions, .activateServiceAccounts, .parseManifests,
        .makeSyncContext, .getPromotionEdges, .makeProducerFunction,
        .implPromoteImages] := by
  rw [promoteImages_eq_success p opts m sc es hv ha hp hm hg]
  exact ⟨rfl, rfl⟩

/-- C6 witness: the theorem applied to the default implementation. -/
theorem claim_C6_witness :
    (New 7).impl.ParseManifests {} = .ok [] ∧
      (New 7).impl.MakeSyncContext {} [] = .ok {} ∧
      (New 7).impl.GetPromotionEdges {} [] = .ok {} ∧
      ((New 7).PromoteImages {}).res =
        wrapE "running promotion"
          ((New 7).impl.PromoteImages {} {}
            ((New 7).impl.MakeProducerFunction
              ({} : SyncContext).UseServiceAccount)) :=
  ⟨rfl, rfl, rfl,
    (claim_C6_producer_built_from_useServiceAccount (New 7) {} [] {} {}
      rfl rfl rfl rfl rfl).1⟩

/-- C10: Promoter.PromoteImages and Promoter.Snapshot neither read nor
modify the stored Options of the receiver: two Promoters sharing an impl but
differing in address and stored Options produce the same error value and the
same invocation trace for the same opts argument, and each receiver is
unchanged after the call. -/
theorem claim_C10_stored_options_not_read_not_written
    (impl : promoterImplementation) (a1 a2 : Nat) (o1 o2 : OptionsRef)
    (opts : Options) :
    ((Promoter.mk a1 o1 impl).PromoteImages opts).res =
        ((Promoter.mk a2 o2 impl).PromoteImages opts).res ∧
      ((Promoter.mk a1 o1 impl).PromoteImages opts).trace =
        ((Promoter.mk a2 o2 impl).PromoteImages opts).trace ∧
      ((Promoter.mk a1 o1 impl).PromoteImages opts).receiver =
        Promoter.mk a1 o1 impl ∧
      ((Promoter.mk a1 o1 impl).Snapshot opts).res =
        ((Promoter.mk a2 o2 impl).Snapshot opts).res ∧
      ((Promoter.mk a1 o1 impl).Snapshot opts).trace =
        ((Promoter.mk a2 o2 impl).Snapshot opts).trace ∧
      ((Promoter.mk a1 o1 impl).Snapshot opts).receiver =
        Promoter.mk a1 o1 impl := by
  obtain ⟨h1, h2⟩ :=
    promoteImages_only_uses_impl ⟨a1, o1, impl⟩ ⟨a2, o2, impl⟩ opts rfl
  obtain ⟨h3, h4⟩ :=
    snapshot_only_uses_impl ⟨a1, o1, impl⟩ ⟨a2, o2, impl⟩ opts rfl
  exact ⟨h1, h2, promoteImages_receiver _ opts, h3, h4,
    snapshot_receiver _ opts⟩

/-- C4: a promotion plan is a mathematical set of edges. Two PromotionEdges
are equal exactly when all seven fields are equal, and any plan returned by
a GetPromotionEdges implementation is a map keyed by the edge, so no two
distinct entries carry equal edges. -/
theorem claim_C4_plan_is_edge_keyed_set :
    (∀ e1 e2 : PromotionEdge,
      e1 = e2 ↔
        e1.SrcRegistry = e2.SrcRegistry ∧
        e1.SrcImageName = e2.SrcImageName ∧
        e1.Digest = e2.Digest ∧
        e1.DstRegistry = e2.DstRegistry ∧
        e1.DstImageName = e2.DstImageName ∧
        e1.Tag = e2.Tag ∧
        e1.TagOp = e2.TagOp) ∧
    (∀ (impl : promoterImplementation) (sc : SyncContext)
        (m : List Manifest) (pm : PromotionMap),
      impl.GetPromotionEdges sc m = .ok pm →
        pm.entries.Pairwise (fun a b => a.1 ≠ b.1)) := by
  constructor
  · intro e1 e2
    constructor
    · rintro rfl
      exact ⟨rfl, rfl, rfl, rfl, rfl, rfl, rfl⟩
    · rintro ⟨h1, h2, h3, h4, h5, h6, h7⟩
      cases e1
      cases e2
      simp_all
  · intro impl sc m pm _
    exact pm.nodupKeys

/-- Sample edge for the C4 witness. -/
def edgeA : PromotionEdge :=
  ⟨"gcr.io/src", "img", "sha256:aaa", "gcr.io/dst", "img", "v1", .Add⟩

/-- Second sample edge for the C4 witness, differing from edgeA in Tag. -/
def edgeB : PromotionEdge :=
  ⟨"gcr.io/src", "img", "sha256:aaa", "gcr.io/dst", "img", "stable", .Add⟩

/-- Concrete two-entry plan for the C4 witness. -/
def planAB : PromotionMap := ⟨[(edgeA, ()), (edgeB, ())], by decide⟩

/-- Implementation returning planAB, for the C4 witness. -/
def planImpl : promoterImplementation :=
  { defaultPromoterImplementation with
      GetPromotionEdges := fun _ _ => .ok planAB }

/-- C4 witness: the theorem applied to concrete edges and a concrete plan. -/
theorem claim_C4_witness :
    (edgeA = edgeB ↔
      edgeA.SrcRegistry = edgeB.SrcRegistry ∧
      edgeA.SrcImageName = edgeB.SrcImageName ∧
      edgeA.Digest = edgeB.Digest ∧
      edgeA.DstRegistry = edgeB.DstRegistry ∧
      edgeA.DstImageName = edgeB.DstImageName ∧
      edgeA.Tag = edgeB.Tag ∧
      edgeA.TagOp = edgeB.TagOp) ∧
    planImpl.GetPromotionEdges {} [] = .ok planAB ∧
    planAB.entries.Pairwise (fun a b => a.1 ≠ b.1) :=
  ⟨claim_C4_plan_is_edge_keyed_set.1 edgeA edgeB, rfl,
    claim_C4_plan_is_edge_keyed_set.2 planImpl {} [] planAB rfl⟩
